import Mathlib

/-!
Verification of the CRISH read-only HTTP API (src/main.py).

The relational store is modelled as Lean lists of rows, one list per table.
Python `float` values are modelled as exact rationals (`ℚ`); the transcendental
`math.exp` is an abstract parameter `exp : ℚ → ℚ`, so every statement below
holds for any exponential. Python `None` is `Option.none`; SQL `NULL` columns
are `Option` fields, compared with SQL three-valued-logic equality (a `NULL`
operand makes the comparison fail). Python truthiness of optional query
parameters (`if caseType:` and friends) is made explicit by `pythonTruthyStr`
and `pythonTruthyInt`. FastAPI/pydantic response serialization and HTTP
routing are outside the modelled boundary, as is the storage engine itself;
the functions below return the ORM-level rows the handlers produce.
-/

/-- Model of a SQL TIMESTAMP column value, as an abstract instant. -/
abbrev Timestamp := Int

/-- Row of the `case_reports` table (class `CaseReport` in src/main.py).
`BigInteger` columns are `Int`, `Float` columns are `ℚ`, `Text` columns are
`String`; every non-primary-key column is nullable, hence `Option`. -/
structure CaseReport where
  id : Int
  caseType : Option String
  numberOfCases : Option ℚ
  latitude : Option ℚ
  longitude : Option ℚ
  weekNumber : Option Int
  fromDateTime : Option Timestamp
  toDateTime : Option Timestamp
  reportingDate : Option Timestamp
  reportingEntityType : Option String
  reportingEntityIdentifier : Option ℚ
  sexGroupMaleCases : Option ℚ
  sexGroupFemaleCases : Option ℚ
  sexGroupUnknownCases : Option ℚ
  ageGroup0To4Cases : Option ℚ
  ageGroup5To18Cases : Option ℚ
  ageGroup19To59Cases : Option ℚ
  ageGroup60PlusCases : Option ℚ
  ageGroupUnknownCases : Option ℚ
  administrativeLevel : Option Int
deriving DecidableEq

/-- Row shape shared by the three daily weather tables
(`RainfallDailyWeightedAverage`, `RelativeHumidityDailyAverage`,
`TemperatureDailyMax` in src/main.py): identical columns, so one structure
serves all three, each table being a `List WeatherMetricRow`. The composite
primary key (`forecast_date`, `municipality_code`) is non-nullable; the other
columns are nullable. -/
structure WeatherMetricRow where
  forecast_date : String
  day_name : Option String
  value : Option ℚ
  municipality_code : String
  municipality_name : Option String
deriving DecidableEq

/-- Response row of the `/weather` endpoint (pydantic model `WeatherData`).
`day_name` and `municipality_name` carry the raw joined column values;
pydantic's response validation is HTTP-framework machinery outside the
modelled boundary. -/
structure WeatherData where
  forecast_date : String
  day_name : Option String
  municipality_name : Option String
  relative_humidity : Option ℚ
  temperature_max : Option ℚ
  rainfall : Option ℚ
  heat_index : Option ℚ
deriving DecidableEq

/-- Model of fastapi's `HTTPException`, carrying the status code and detail. -/
structure HTTPException where
  status_code : Nat
  detail : String
deriving DecidableEq

/-- Python truthiness of an optional string parameter: `None` and `""` are
falsy, any other string is truthy (the `if caseType:` test). -/
def pythonTruthyStr : Option String → Bool
  | none => false
  | some s => !(s == "")

/-- Python truthiness of an optional integer parameter: `None` and `0` are
falsy (the `if weekNumber:` test). -/
def pythonTruthyInt : Option Int → Bool
  | none => false
  | some n => !(n == 0)

/-- SQL equality of two nullable text operands: true only when both are
non-NULL and equal (NULL comparisons are not satisfied in a WHERE/ON clause). -/
def sqlStrEq : Option String → Option String → Bool
  | some c, some s => c == s
  | _, _ => false

/-- SQL equality of a nullable integer column against an optional parameter:
true only when both are present and equal. -/
def sqlIntEq : Option Int → Option Int → Bool
  | some c, some k => c == k
  | _, _ => false

/-- SQL equality of a non-nullable text column against an optional parameter. -/
def strEqOpt (c : String) : Option String → Bool
  | some s => c == s
  | none => false

/-- The filtered `case_reports` query built by lines 146-154 of src/main.py:
each supplied (truthy) parameter appends an exact-match WHERE clause,
conjunctively. Factored out of `get_case_reports` so theorems can refer to
the filtered relation. -/
def caseReportsQuery (db : List CaseReport) (caseType reportingEntityType : Option String)
    (weekNumber : Option Int) : List CaseReport :=
  let query := db
  let query := if pythonTruthyStr caseType then
    query.filter (fun r => sqlStrEq r.caseType caseType) else query
  let query := if pythonTruthyStr reportingEntityType then
    query.filter (fun r => sqlStrEq r.reportingEntityType reportingEntityType) else query
  let query := if pythonTruthyInt weekNumber then
    query.filter (fun r => sqlIntEq r.weekNumber weekNumber) else query
  query

/-- Handler of `GET /case_reports` (`get_case_reports` in src/main.py):
filter, count, page via offset `(page-1)*page_size` and limit `page_size`,
and raise 404 when the page is empty. `page ≥ 1` and `1 ≤ page_size ≤ 100`
are enforced upstream by FastAPI query validation. -/
def get_case_reports (db : List CaseReport) (caseType reportingEntityType : Option String)
    (weekNumber : Option Int) (page page_size : Nat) :
    Except HTTPException (List CaseReport) :=
  let query := caseReportsQuery db caseType reportingEntityType weekNumber
  let offset := (page - 1) * page_size
  let case_reports := (query.drop offset).take page_size
  if case_reports.isEmpty then
    Except.error { status_code := 404, detail := "No case reports found" }
  else
    Except.ok case_reports

/-- Handler of `GET /case_reports/{report_id}` (`get_case_report` in
src/main.py): `.filter(id == report_id).first()` is the first matching row,
404 when there is none. -/
def get_case_report (report_id : Int) (db : List CaseReport) :
    Except HTTPException CaseReport :=
  match db.find? (fun r => r.id == report_id) with
  | some report => Except.ok report
  | none => Except.error { status_code := 404, detail := "Case report not found" }

/-- `compute_heat_index` from src/main.py, over exact rationals with an
abstract exponential. The `try/except` is modelled by the one arithmetic
failure exact evaluation of the expression can raise, the division by zero
at `273.15 + temperature = 0`, which yields `none`. The humidity argument is
accepted and never used, exactly as in the source. -/
def compute_heat_index (exp : ℚ → ℚ) (temperature humidity : Option ℚ) : Option ℚ :=
  match temperature, humidity with
  | some t, some _h =>
      if (273.15 : ℚ) + t = 0 then none
      else some (t + 0.5555 * (6.11 * exp (5417.7530 * (1 / 273.15 - 1 / (273.15 + t))) - 10))
  | _, _ => none

/-- The heat-index formula exactly as the specification writes it:
`T + 0.5555 * (6.11 * exp(5417.7530 * (1/273.15 - 1/(273.15 + T))) - 10)`. -/
def spec_heat_index (exp : ℚ → ℚ) (T : ℚ) : ℚ :=
  T + 0.5555 * (6.11 * exp (5417.7530 * (1 / 273.15 - 1 / (273.15 + T))) - 10)

/-- SQL LEFT OUTER JOIN over list-modelled tables: every left row is kept;
a left row with no ON-match contributes one row with a NULL right side,
otherwise one row per matching right row. -/
def leftJoin (as : List α) (bs : List β) (key : α → β → Bool) : List (α × Option β) :=
  as.flatMap fun a =>
    let ms := bs.filter (key a)
    if ms.isEmpty then [(a, none)] else ms.map (fun b => (a, some b))

/-- The ON condition of both weather joins in src/main.py: equality of
`forecast_date`, `day_name` and `municipality_code` between the humidity
anchor row `a` and a candidate row `b` (nullable `day_name` compared with
SQL semantics). -/
def weatherKeyMatch (a b : WeatherMetricRow) : Bool :=
  a.forecast_date == b.forecast_date
    && sqlStrEq a.day_name b.day_name
    && a.municipality_code == b.municipality_code

/-- The joined and filtered rows of the `/weather` query (lines 203-235 of
src/main.py): humidity LEFT JOIN temperature LEFT JOIN rainfall, then each
supplied (truthy) filter appended as a WHERE clause on the anchor columns.
A row is `((humidity, temperature?), rainfall?)`. -/
def weatherQueryRows (forecast_date municipality_code municipality_name : Option String)
    (rh tmax rain : List WeatherMetricRow) :
    List ((WeatherMetricRow × Option WeatherMetricRow) × Option WeatherMetricRow) :=
  let query := leftJoin (leftJoin rh tmax weatherKeyMatch) rain
    (fun p b => weatherKeyMatch p.1 b)
  let query := if pythonTruthyStr forecast_date then
    query.filter (fun t => strEqOpt t.1.1.forecast_date forecast_date) else query
  let query := if pythonTruthyStr municipality_code then
    query.filter (fun t => strEqOpt t.1.1.municipality_code municipality_code) else query
  let query := if pythonTruthyStr municipality_name then
    query.filter (fun t => sqlStrEq t.1.1.municipality_name municipality_name) else query
  query

/-- Response shaping of one joined row (lines 240-252 of src/main.py): the
anchor columns, the two outer-joined values (NULL when the join found no row
or the found row's value is NULL), and the derived heat index computed from
`temperature_max` and `relative_humidity`. -/
def weatherDataOfRow (exp : ℚ → ℚ)
    (t : (WeatherMetricRow × Option WeatherMetricRow) × Option WeatherMetricRow) :
    WeatherData :=
  let row := t.1.1
  let temperature_max := t.1.2.bind WeatherMetricRow.value
  let rainfall := t.2.bind WeatherMetricRow.value
  { forecast_date := row.forecast_date
    day_name := row.day_name
    municipality_name := row.municipality_name
    relative_humidity := row.value
    temperature_max := temperature_max
    rainfall := rainfall
    heat_index := compute_heat_index exp temperature_max row.value }

/-- Handler of `GET /weather` (`fetch_weather_data` in src/main.py): run the
joined, filtered query, raise 404 on an empty result, otherwise shape every
row. -/
def fetch_weather_data (exp : ℚ → ℚ)
    (forecast_date municipality_code municipality_name : Option String)
    (rh tmax rain : List WeatherMetricRow) :
    Except HTTPException (List WeatherData) :=
  let results := weatherQueryRows forecast_date municipality_code municipality_name rh tmax rain
  if results.isEmpty then
    Except.error { status_code := 404, detail := "No data found for the given filters" }
  else
    Except.ok (results.map (weatherDataOfRow exp))

/-- The anchor (humidity) rows that satisfy the supplied filters: the same
WHERE clauses as `weatherQueryRows`, applied to the anchor table directly. -/
def anchorFiltered (forecast_date municipality_code municipality_name : Option String)
    (rh : List WeatherMetricRow) : List WeatherMetricRow :=
  let q := rh
  let q := if pythonTruthyStr forecast_date then
    q.filter (fun a => strEqOpt a.forecast_date forecast_date) else q
  let q := if pythonTruthyStr municipality_code then
    q.filter (fun a => strEqOpt a.municipality_code municipality_code) else q
  let q := if pythonTruthyStr municipality_name then
    q.filter (fun a => sqlStrEq a.municipality_name municipality_name) else q
  q

/-- The unique `/weather` response row produced by one anchor row `a`:
its outer-join partners are the first (hence, under the key invariant, the
only) matching rows of the temperature and rainfall tables. -/
def weatherRowOf (exp : ℚ → ℚ) (tmax rain : List WeatherMetricRow)
    (a : WeatherMetricRow) : WeatherData :=
  weatherDataOfRow exp ((a, tmax.find? (weatherKeyMatch a)), rain.find? (weatherKeyMatch a))

/-- The spec's invariant on each weather table: the composite
(`forecast_date`, `municipality_code`) primary key identifies a row uniquely. -/
def pkUnique (t : List WeatherMetricRow) : Prop :=
  t.Pairwise (fun r1 r2 =>
    ¬(r1.forecast_date = r2.forecast_date ∧ r1.municipality_code = r2.municipality_code))

/-- Concrete case report used in witnesses: id 1, dengue, week 5. -/
def exReport1 : CaseReport :=
  { id := 1, caseType := some "Dengue", numberOfCases := some 3, latitude := none,
    longitude := none, weekNumber := some 5, fromDateTime := none, toDateTime := none,
    reportingDate := none, reportingEntityType := some "Hospital",
    reportingEntityIdentifier := none, sexGroupMaleCases := none,
    sexGroupFemaleCases := none, sexGroupUnknownCases := none,
    ageGroup0To4Cases := none, ageGroup5To18Cases := none,
    ageGroup19To59Cases := none, ageGroup60PlusCases := none,
    ageGroupUnknownCases := none, administrativeLevel := none }

/-- Concrete case report used in witnesses: id 2, malaria, week 6. -/
def exReport2 : CaseReport :=
  { exReport1 with
    id := 2
    caseType := some "Malaria"
    weekNumber := some 6
    reportingEntityType := some "Clinic" }

/-- Concrete case report used in witnesses: id 3, dengue, week 6. -/
def exReport3 : CaseReport :=
  { exReport1 with id := 3, caseType := some "Dengue", weekNumber := some 6 }

/-- Concrete three-row `case_reports` store used in witnesses. -/
def exDb : List CaseReport := [exReport1, exReport2, exReport3]

/-- Concrete humidity anchor row with no temperature or rainfall partner. -/
def exRH1 : WeatherMetricRow :=
  { forecast_date := "2025-01-01", day_name := some "Wednesday", value := some 80,
    municipality_code := "TL-DI", municipality_name := some "Dili" }

/-- C3: for every fixed temperature (present or absent) and any two present
humidity values, `compute_heat_index` returns the same result: the humidity
argument has no influence on the output. -/
theorem compute_heat_index_humidity_blind (exp : ℚ → ℚ) (T : Option ℚ) (H1 H2 : ℚ) :
    compute_heat_index exp T (some H1) = compute_heat_index exp T (some H2) := by
  cases T <;> rfl

/-- C8: `compute_heat_index` returns absent (never an error) whenever either
input is absent: absent temperature with any humidity, and any temperature
with absent humidity, both yield absent. -/
theorem compute_heat_index_absent_inputs (exp : ℚ → ℚ) (T H : Option ℚ) :
    compute_heat_index exp none H = none ∧ compute_heat_index exp T none = none := by
  constructor
  · cases H <;> rfl
  · cases T <;> rfl

/-- C2: for present inputs, `compute_heat_index` evaluates exactly the spec's
formula `T + 0.5555 * (6.11 * exp(5417.7530 * (1/273.15 - 1/(273.15 + T))) - 10)`
(here over exact rationals with an abstract exponential), and the arithmetic
failure at `T = -273.15` (division by zero) yields absent instead of an
exception. -/
theorem compute_heat_index_formula (exp : ℚ → ℚ) (T H : ℚ) :
    (T ≠ -273.15 → compute_heat_index exp (some T) (some H) = some (spec_heat_index exp T))
      ∧ compute_heat_index exp (some (-273.15 : ℚ)) (some H) = none := by
  constructor
  · intro hT
    have h : (273.15 : ℚ) + T ≠ 0 := by
      intro h0
      exact hT (by linarith)
    simp [compute_heat_index, spec_heat_index, h]
  · have h : (273.15 : ℚ) + (-273.15) = 0 := by norm_num
    simp [compute_heat_index, h]

/-- Witness for C2 at temperature 30, humidities 50 and 40. -/
theorem compute_heat_index_formula_witness :
    compute_heat_index id (some 30) (some 50) = some (spec_heat_index id 30)
      ∧ compute_heat_index id (some (-273.15 : ℚ)) (some 40) = none :=
  ⟨(compute_heat_index_formula id 30 50).1 (by norm_num),
   (compute_heat_index_formula id 30 40).2⟩

/-- C7: filtering case reports by week number 0 is indistinguishable from
supplying no week-number filter at all, for every store state and every
combination of the other parameters (the `if weekNumber:` truthiness quirk). -/
theorem weekNumber_zero_equals_no_filter (db : List CaseReport)
    (caseType reportingEntityType : Option String) (page page_size : Nat) :
    get_case_reports db caseType reportingEntityType (some 0) page page_size =
      get_case_reports db caseType reportingEntityType none page page_size := rfl

/-- C10: every text-valued filter parameter has the falsy-equals-absent quirk:
an empty-string `caseType` or `reportingEntityType` on the list operation, and
an empty-string `forecast_date`, `municipality_code` or `municipality_name` on
the weather fetch, each behave exactly like no filter at all, for every store
state. -/
theorem empty_string_filter_equals_no_filter (db : List CaseReport) (exp : ℚ → ℚ)
    (caseType reportingEntityType : Option String) (weekNumber : Option Int)
    (page page_size : Nat) (forecast_date municipality_code municipality_name : Option String)
    (rh tmax rain : List WeatherMetricRow) :
    (get_case_reports db (some "") reportingEntityType weekNumber page page_size =
       get_case_reports db none reportingEntityType weekNumber page page_size)
    ∧ (get_case_reports db caseType (some "") weekNumber page page_size =
       get_case_reports db caseType none weekNumber page page_size)
    ∧ (fetch_weather_data exp (some "") municipality_code municipality_name rh tmax rain =
       fetch_weather_data exp none municipality_code municipality_name rh tmax rain)
    ∧ (fetch_weather_data exp forecast_date (some "") municipality_name rh tmax rain =
       fetch_weather_data exp forecast_date none municipality_name rh tmax rain)
    ∧ (fetch_weather_data exp forecast_date municipality_code (some "") rh tmax rain =
       fetch_weather_data exp forecast_date municipality_code none rh tmax rain) :=
  ⟨rfl, rfl, rfl, rfl, rfl⟩

/-- Helper: an absent temperature forces an absent heat index, whatever the
humidity. -/
theorem heat_index_none_of_temp_none (exp : ℚ → ℚ) (H : Option ℚ) :
    compute_heat_index exp none H = none := by
  cases H <;> rfl

/-- Helper: `find?` returns the head of the filtered list. -/
theorem find?_eq_head?_filter (p : α → Bool) (l : List α) :
    l.find? p = (l.filter p).head? := by
  induction l with
  | nil => rfl
  | cons a t ih =>
    by_cases h : p a = true
    · rw [List.find?_cons_of_pos _ h, List.filter_cons_of_pos h, List.head?_cons]
    · rw [List.find?_cons_of_neg _ h, List.filter_cons_of_neg h, ih]

/-- Helper: when every left row has at most one ON-match, a left outer join is
the map pairing each left row with its first (only) match. -/
theorem leftJoin_eq_map (as : List α) (bs : List β) (key : α → β → Bool)
    (h : ∀ a, (bs.filter (key a)).length ≤ 1) :
    leftJoin as bs key = as.map fun a => (a, bs.find? (key a)) := by
  induction as with
  | nil => rfl
  | cons a t ih =>
    rw [leftJoin, List.flatMap_cons, ← leftJoin, ih, List.map_cons,
        find?_eq_head?_filter]
    rcases hf : bs.filter (key a) with _ | ⟨b, t2⟩
    · simp
    · have h2 : t2 = [] := by
        have hlen := h a
        rw [hf] at hlen
        simpa using hlen
      subst h2
      simp

/-- Helper: a row satisfying the weather join condition for anchor `a` agrees
with `a` on the composite primary key. -/
theorem weatherKeyMatch_fields {a b : WeatherMetricRow}
    (h : weatherKeyMatch a b = true) :
    b.forecast_date = a.forecast_date ∧ b.municipality_code = a.municipality_code := by
  have h' := h
  simp only [weatherKeyMatch, Bool.and_eq_true, beq_iff_eq] at h'
  exact ⟨h'.1.1.symm, h'.2.symm⟩

/-- Helper: the primary-key invariant bounds the number of join matches of any
anchor row by one. -/
theorem pkUnique_filter_length_le_one {t : List WeatherMetricRow}
    (ht : pkUnique t) (a : WeatherMetricRow) :
    (t.filter (weatherKeyMatch a)).length ≤ 1 := by
  rcases hf : t.filter (weatherKeyMatch a) with _ | ⟨b1, _ | ⟨b2, t2⟩⟩
  · simp
  · simp
  · exfalso
    have hp : (t.filter (weatherKeyMatch a)).Pairwise (fun r1 r2 =>
        ¬(r1.forecast_date = r2.forecast_date ∧
          r1.municipality_code = r2.municipality_code)) :=
      List.Pairwise.sublist (List.filter_sublist t) ht
    rw [hf] at hp
    have hrel := (List.pairwise_cons.mp hp).1 b2 (List.mem_cons_self b2 t2)
    have hb1 : weatherKeyMatch a b1 = true := by
      have : b1 ∈ t.filter (weatherKeyMatch a) := by rw [hf]; exact List.mem_cons_self _ _
      exact (List.mem_filter.mp this).2
    have hb2 : weatherKeyMatch a b2 = true := by
      have : b2 ∈ t.filter (weatherKeyMatch a) := by
        rw [hf]
        exact List.mem_cons_of_mem _ (List.mem_cons_self _ _)
      exact (List.mem_filter.mp this).2
    rcases weatherKeyMatch_fields hb1 with ⟨hfd1, hmc1⟩
    rcases weatherKeyMatch_fields hb2 with ⟨hfd2, hmc2⟩
    exact hrel ⟨hfd1.trans hfd2.symm, hmc1.trans hmc2.symm⟩

/-- Helper: under the primary-key invariant on the temperature and rainfall
tables, the joined and filtered weather query is the filtered anchor list,
each anchor paired with its unique outer-join partners. -/
theorem weatherQueryRows_eq_map
    (forecast_date municipality_code municipality_name : Option String)
    (rh tmax rain : List WeatherMetricRow)
    (htm : pkUnique tmax) (hra : pkUnique rain) :
    weatherQueryRows forecast_date municipality_code municipality_name rh tmax rain =
      (anchorFiltered forecast_date municipality_code municipality_name rh).map
        (fun a => ((a, tmax.find? (weatherKeyMatch a)), rain.find? (weatherKeyMatch a))) := by
  unfold weatherQueryRows anchorFiltered
  rw [leftJoin_eq_map rh tmax weatherKeyMatch (fun a => pkUnique_filter_length_le_one htm a),
      leftJoin_eq_map (rh.map fun a => (a, tmax.find? (weatherKeyMatch a))) rain
        (fun p b => weatherKeyMatch p.1 b) (fun p => pkUnique_filter_length_le_one hra p.1),
      List.map_map]
  dsimp only
  split_ifs <;> (try simp only [List.filter_map]) <;> rfl

/-- Helper: a successful list call returns exactly the page slice of the
filtered relation. -/
theorem get_case_reports_ok_eq {db : List CaseReport}
    {caseType reportingEntityType : Option String} {weekNumber : Option Int}
    {page page_size : Nat} {l : List CaseReport}
    (hok : get_case_reports db caseType reportingEntityType weekNumber page page_size =
      Except.ok l) :
    l = ((caseReportsQuery db caseType reportingEntityType weekNumber).drop
          ((page - 1) * page_size)).take page_size := by
  have heq : get_case_reports db caseType reportingEntityType weekNumber page page_size =
      if (((caseReportsQuery db caseType reportingEntityType weekNumber).drop
            ((page - 1) * page_size)).take page_size).isEmpty then
        Except.error { status_code := 404, detail := "No case reports found" }
      else
        Except.ok (((caseReportsQuery db caseType reportingEntityType weekNumber).drop
          ((page - 1) * page_size)).take page_size) := rfl
  rw [heq] at hok
  by_cases h : (((caseReportsQuery db caseType reportingEntityType weekNumber).drop
      ((page - 1) * page_size)).take page_size).isEmpty = true
  · rw [if_pos h] at hok
    exact absurd hok (by simp)
  · rw [if_neg h] at hok
    injection hok with h2
    exact h2.symm

/-- Helper: a successful weather call returns exactly the shaped joined rows. -/
theorem fetch_weather_data_ok_eq {exp : ℚ → ℚ}
    {forecast_date municipality_code municipality_name : Option String}
    {rh tmax rain : List WeatherMetricRow} {l : List WeatherData}
    (hok : fetch_weather_data exp forecast_date municipality_code municipality_name
      rh tmax rain = Except.ok l) :
    l = (weatherQueryRows forecast_date municipality_code municipality_name rh tmax rain).map
          (weatherDataOfRow exp) := by
  have heq : fetch_weather_data exp forecast_date municipality_code municipality_name
      rh tmax rain =
      if (weatherQueryRows forecast_date municipality_code municipality_name
            rh tmax rain).isEmpty then
        Except.error { status_code := 404, detail := "No data found for the given filters" }
      else
        Except.ok ((weatherQueryRows forecast_date municipality_code municipality_name
          rh tmax rain).map (weatherDataOfRow exp)) := rfl
  rw [heq] at hok
  by_cases h : (weatherQueryRows forecast_date municipality_code municipality_name
      rh tmax rain).isEmpty = true
  · rw [if_pos h] at hok
    exact absurd hok (by simp)
  · rw [if_neg h] at hok
    injection hok with h2
    exact h2.symm

/-- Helper: concatenating the first `n` consecutive page slices of size `ps`
recovers the first `n * ps` elements. -/
theorem flatMap_range_take (q : List α) (ps : Nat) (n : Nat) :
    (List.range n).flatMap (fun i => (q.drop (i * ps)).take ps) = q.take (n * ps) := by
  induction n with
  | zero => simp
  | succ m ih =>
    rw [List.range_succ, List.flatMap_append, ih, Nat.succ_mul, List.take_add]
    simp

/-- Helper: in a list pairwise-distinct on a key, the key determines the
element. -/
theorem pairwise_ne_key_inj {α κ : Type _} (key : α → κ) (l : List α)
    (hl : l.Pairwise (fun x y => key x ≠ key y)) :
    ∀ x ∈ l, ∀ y ∈ l, key x = key y → x = y := by
  induction l with
  | nil => intro x hx; exact absurd hx (List.not_mem_nil x)
  | cons a t ih =>
    rcases List.pairwise_cons.mp hl with ⟨ha, ht⟩
    intro x hx y hy hk
    rcases List.mem_cons.mp hx with rfl | hx'
    · rcases List.mem_cons.mp hy with rfl | hy'
      · rfl
      · exact absurd hk (ha y hy')
    · rcases List.mem_cons.mp hy with rfl | hy'
      · exact absurd hk.symm (ha x hx')
      · exact ih ht x hx' y hy' hk

/-- Helper: a row of the filtered case-report relation satisfies every filter
that was actually applied (i.e., whose parameter is truthy). -/
theorem mem_caseReportsQuery {db : List CaseReport}
    {caseType reportingEntityType : Option String} {weekNumber : Option Int}
    {r : CaseReport} (hr : r ∈ caseReportsQuery db caseType reportingEntityType weekNumber) :
    (pythonTruthyStr caseType = true → sqlStrEq r.caseType caseType = true)
    ∧ (pythonTruthyStr reportingEntityType = true →
        sqlStrEq r.reportingEntityType reportingEntityType = true)
    ∧ (pythonTruthyInt weekNumber = true → sqlIntEq r.weekNumber weekNumber = true) := by
  unfold caseReportsQuery at hr
  dsimp only at hr
  by_cases h1 : pythonTruthyStr caseType = true <;>
    by_cases h2 : pythonTruthyStr reportingEntityType = true <;>
      by_cases h3 : pythonTruthyInt weekNumber = true <;>
        simp only [h1, h2, h3, if_true, if_false, List.mem_filter,
          Bool.not_eq_true, if_neg, ite_false, ite_true] at hr <;>
          exact ⟨fun ht => by tauto, fun ht => by tauto, fun ht => by tauto⟩

/-- Helper: SQL equality against a present string parameter pins the column. -/
theorem sqlStrEq_some {o : Option String} {c : String}
    (h : sqlStrEq o (some c) = true) : o = some c := by
  cases o with
  | none => simp [sqlStrEq] at h
  | some s =>
    have hs : s = c := by simpa [sqlStrEq] using h
    rw [hs]

/-- Helper: SQL equality against a present integer parameter pins the column. -/
theorem sqlIntEq_some {o : Option Int} {k : Int}
    (h : sqlIntEq o (some k) = true) : o = some k := by
  cases o with
  | none => simp [sqlIntEq] at h
  | some m =>
    have hm : m = k := by simpa [sqlIntEq] using h
    rw [hm]

/-- Helper: in a shaped weather row, an absent temperature forces an absent
heat index. -/
theorem weatherDataOfRow_heat_index_none (exp : ℚ → ℚ)
    (t : (WeatherMetricRow × Option WeatherMetricRow) × Option WeatherMetricRow)
    (h : (weatherDataOfRow exp t).temperature_max = none) :
    (weatherDataOfRow exp t).heat_index = none := by
  have hh : (weatherDataOfRow exp t).heat_index =
      compute_heat_index exp ((weatherDataOfRow exp t).temperature_max)
        ((weatherDataOfRow exp t).relative_humidity) := rfl
  rw [hh, h]
  exact heat_index_none_of_temp_none exp _

/-- Helper: the `if isEmpty then 404 else ok` epilogue of the list endpoint:
the error appears exactly on the empty result, and a success is non-empty. -/
theorem except404_cases {α : Type _} (results : List α) (e : HTTPException) :
    ((if results.isEmpty then Except.error e else Except.ok results) = Except.error e
      ↔ results = [])
    ∧ ∀ l, (if results.isEmpty then Except.error e else Except.ok results) =
        Except.ok l → l ≠ [] := by
  by_cases h : results.isEmpty = true
  · rw [if_pos h]
    exact ⟨⟨fun _ => List.isEmpty_iff.mp h, fun _ => rfl⟩,
      fun l hc => absurd hc (by simp)⟩
  · rw [if_neg h]
    refine ⟨⟨fun hc => absurd hc (by simp),
      fun hempty => absurd (List.isEmpty_iff.mpr hempty) h⟩, ?_⟩
    intro l hc
    injection hc with h2
    subst h2
    intro hnil
    exact h (List.isEmpty_iff.mpr hnil)

/-- Helper: the same epilogue for the weather endpoint, whose success maps the
result rows before returning them. -/
theorem except404_map_cases {α β : Type _} (results : List α) (f : α → β)
    (e : HTTPException) :
    ((if results.isEmpty then Except.error e else Except.ok (results.map f)) =
        Except.error e ↔ results = [])
    ∧ ∀ l, (if results.isEmpty then Except.error e else Except.ok (results.map f)) =
        Except.ok l → l ≠ [] := by
  by_cases h : results.isEmpty = true
  · rw [if_pos h]
    exact ⟨⟨fun _ => List.isEmpty_iff.mp h, fun _ => rfl⟩,
      fun l hc => absurd hc (by simp)⟩
  · rw [if_neg h]
    refine ⟨⟨fun hc => absurd hc (by simp),
      fun hempty => absurd (List.isEmpty_iff.mpr hempty) h⟩, ?_⟩
    intro l hc
    injection hc with h2
    subst h2
    intro hnil
    exact h (List.isEmpty_iff.mpr (List.map_eq_nil_iff.mp hnil))

/-- C1: under the per-table primary-key invariant, a successful weather fetch
returns exactly one row per filtered humidity (anchor) row, in order; an
anchor row with no matching temperature row gets an absent `temperature_max`,
one with no matching rainfall row gets an absent `rainfall`, and any returned
row with an absent temperature also has an absent `heat_index`. -/
theorem fetch_weather_left_join_anchor (exp : ℚ → ℚ)
    (forecast_date municipality_code municipality_name : Option String)
    (rh tmax rain : List WeatherMetricRow)
    (htm : pkUnique tmax) (hra : pkUnique rain) (l : List WeatherData)
    (hok : fetch_weather_data exp forecast_date municipality_code municipality_name
      rh tmax rain = Except.ok l) :
    l = (anchorFiltered forecast_date municipality_code municipality_name rh).map
          (weatherRowOf exp tmax rain)
    ∧ (∀ row ∈ l, row.temperature_max = none → row.heat_index = none)
    ∧ ∀ a ∈ anchorFiltered forecast_date municipality_code municipality_name rh,
        (tmax.find? (weatherKeyMatch a) = none →
          (weatherRowOf exp tmax rain a).temperature_max = none)
        ∧ (rain.find? (weatherKeyMatch a) = none →
          (weatherRowOf exp tmax rain a).rainfall = none) := by
  have hq := weatherQueryRows_eq_map forecast_date municipality_code municipality_name
    rh tmax rain htm hra
  have hl := fetch_weather_data_ok_eq hok
  rw [hq, List.map_map] at hl
  refine ⟨hl, ?_, ?_⟩
  · intro row hrow hnone
    rw [hl] at hrow
    rcases List.mem_map.mp hrow with ⟨a, _, rfl⟩
    exact weatherDataOfRow_heat_index_none exp _ hnone
  · intro a _
    constructor
    · intro h
      simp [weatherRowOf, weatherDataOfRow, h]
    · intro h
      simp [weatherRowOf, weatherDataOfRow, h]

/-- Witness for C1 on a one-row humidity table with empty temperature and
rainfall tables. -/
theorem fetch_weather_left_join_anchor_witness :
    [weatherRowOf id ([] : List WeatherMetricRow) ([] : List WeatherMetricRow) exRH1] =
        (anchorFiltered none none none [exRH1]).map (weatherRowOf id [] [])
      ∧ (∀ row ∈ [weatherRowOf id ([] : List WeatherMetricRow)
            ([] : List WeatherMetricRow) exRH1],
          row.temperature_max = none → row.heat_index = none)
      ∧ ∀ a ∈ anchorFiltered none none none [exRH1],
          (([] : List WeatherMetricRow).find? (weatherKeyMatch a) = none →
            (weatherRowOf id [] [] a).temperature_max = none)
          ∧ (([] : List WeatherMetricRow).find? (weatherKeyMatch a) = none →
            (weatherRowOf id [] [] a).rainfall = none) :=
  fetch_weather_left_join_anchor id none none none [exRH1] [] []
    List.Pairwise.nil List.Pairwise.nil
    [weatherRowOf id [] [] exRH1] rfl

/-- C4: a successful list call returns exactly the slice of the filtered
relation at offset `(page-1)*page_size` of length at most `page_size`, and
concatenating the pages `1..n`, for any page count `n` covering the filtered
relation, reproduces the filtered relation exactly. -/
theorem get_case_reports_pagination (db : List CaseReport)
    (caseType reportingEntityType : Option String) (weekNumber : Option Int)
    (page page_size n : Nat) (l : List CaseReport)
    (hok : get_case_reports db caseType reportingEntityType weekNumber page page_size =
      Except.ok l)
    (hcov : (caseReportsQuery db caseType reportingEntityType weekNumber).length ≤
      n * page_size) :
    l = ((caseReportsQuery db caseType reportingEntityType weekNumber).drop
          ((page - 1) * page_size)).take page_size
    ∧ l.length ≤ page_size
    ∧ (List.range n).flatMap
        (fun i => ((caseReportsQuery db caseType reportingEntityType weekNumber).drop
          (i * page_size)).take page_size) =
        caseReportsQuery db caseType reportingEntityType weekNumber := by
  have hl := get_case_reports_ok_eq hok
  refine ⟨hl, ?_, ?_⟩
  · rw [hl]
    exact List.length_take_le _ _
  · rw [flatMap_range_take]
    exact List.take_of_length_le hcov

/-- Witness for C4 on a three-row store with page size 2: page 2 holds the
third row, and pages 1 and 2 together recover the whole relation. -/
theorem get_case_reports_pagination_witness :
    [exReport3] = ((caseReportsQuery exDb none none none).drop ((2 - 1) * 2)).take 2
    ∧ ([exReport3] : List CaseReport).length ≤ 2
    ∧ (List.range 2).flatMap
        (fun i => ((caseReportsQuery exDb none none none).drop (i * 2)).take 2) =
        caseReportsQuery exDb none none none :=
  get_case_reports_pagination exDb none none none 2 2 2 [exReport3] rfl (by decide)

/-- C5: both read operations fail with the 404 NotFound error exactly when the
result set is empty after filtering (and, for the list operation, paging), and
any successful response is a non-empty array. Both operations are pure
functions of the store, so no store state is changed on any path. -/
theorem not_found_iff_empty (db : List CaseReport)
    (caseType reportingEntityType : Option String) (weekNumber : Option Int)
    (page page_size : Nat) (exp : ℚ → ℚ)
    (forecast_date municipality_code municipality_name : Option String)
    (rh tmax rain : List WeatherMetricRow) :
    (get_case_reports db caseType reportingEntityType weekNumber page page_size =
        Except.error { status_code := 404, detail := "No case reports found" }
      ↔ ((caseReportsQuery db caseType reportingEntityType weekNumber).drop
          ((page - 1) * page_size)).take page_size = [])
    ∧ (∀ l, get_case_reports db caseType reportingEntityType weekNumber page page_size =
        Except.ok l → l ≠ [])
    ∧ (fetch_weather_data exp forecast_date municipality_code municipality_name
          rh tmax rain =
        Except.error { status_code := 404, detail := "No data found for the given filters" }
      ↔ weatherQueryRows forecast_date municipality_code municipality_name rh tmax rain = [])
    ∧ (∀ l, fetch_weather_data exp forecast_date municipality_code municipality_name
        rh tmax rain = Except.ok l → l ≠ []) := by
  have hc := except404_cases
    (((caseReportsQuery db caseType reportingEntityType weekNumber).drop
      ((page - 1) * page_size)).take page_size)
    { status_code := 404, detail := "No case reports found" }
  have hw := except404_map_cases
    (weatherQueryRows forecast_date municipality_code municipality_name rh tmax rain)
    (weatherDataOfRow exp)
    { status_code := 404, detail := "No data found for the given filters" }
  exact ⟨hc.1, hc.2, hw.1, hw.2⟩

/-- Witness for C5: the empty store yields the 404 error for both endpoints;
successful calls return non-empty arrays. -/
theorem not_found_iff_empty_witness :
    get_case_reports [] none none none 1 10 =
        Except.error { status_code := 404, detail := "No case reports found" }
      ∧ ([exReport1] : List CaseReport) ≠ []
      ∧ fetch_weather_data id none none none [] [] [] =
          Except.error { status_code := 404, detail := "No data found for the given filters" }
      ∧ ([weatherRowOf id [] [] exRH1] : List WeatherData) ≠ [] :=
  ⟨(not_found_iff_empty [] none none none 1 10 id none none none [] [] []).1.mpr rfl,
   (not_found_iff_empty [exReport1] none none none 1 10 id none none none [] [] []).2.1
     [exReport1] rfl,
   (not_found_iff_empty [] none none none 1 10 id none none none [] [] []).2.2.1.mpr rfl,
   (not_found_iff_empty [] none none none 1 10 id none none none [exRH1] [] []).2.2.2
     [weatherRowOf id [] [] exRH1] rfl⟩

/-- C6 counterexample: with the filter `weekNumber = 0` supplied, the list call
returns a record whose `weekNumber` is 5, so the claim that every returned
record matches every supplied filter fails for falsy filter values. -/
theorem get_case_reports_filters_counterexample :
    get_case_reports [exReport1] none none (some 0) 1 10 = Except.ok [exReport1]
      ∧ exReport1.weekNumber ≠ some 0 :=
  ⟨rfl, by decide⟩

/-- C6 (amended): every record returned by the list operation matches every
supplied truthy filter value by exact equality, conjunctively: a non-empty
`caseType` or `reportingEntityType` and a nonzero `weekNumber` are each
reflected exactly in all returned records. -/
theorem get_case_reports_filters_match (db : List CaseReport)
    (caseType reportingEntityType : Option String) (weekNumber : Option Int)
    (page page_size : Nat) (l : List CaseReport)
    (hok : get_case_reports db caseType reportingEntityType weekNumber page page_size =
      Except.ok l) :
    ∀ r ∈ l,
      (∀ c, caseType = some c → c ≠ "" → r.caseType = some c)
      ∧ (∀ c, reportingEntityType = some c → c ≠ "" → r.reportingEntityType = some c)
      ∧ (∀ k, weekNumber = some k → k ≠ 0 → r.weekNumber = some k) := by
  intro r hr
  have hl := get_case_reports_ok_eq hok
  rw [hl] at hr
  have hr1 := (List.take_sublist _ _).subset hr
  have hrq := (List.drop_sublist _ _).subset hr1
  rcases mem_caseReportsQuery hrq with ⟨h1, h2, h3⟩
  refine ⟨?_, ?_, ?_⟩
  · intro c hceq hcne
    subst hceq
    have hb : (c == "") = false := beq_eq_false_iff_ne.mpr hcne
    exact sqlStrEq_some (h1 (by simp [pythonTruthyStr, hb]))
  · intro c hceq hcne
    subst hceq
    have hb : (c == "") = false := beq_eq_false_iff_ne.mpr hcne
    exact sqlStrEq_some (h2 (by simp [pythonTruthyStr, hb]))
  · intro k hkeq hkne
    subst hkeq
    have hb : (k == 0) = false := beq_eq_false_iff_ne.mpr hkne
    exact sqlIntEq_some (h3 (by simp [pythonTruthyInt, hb]))

/-- Witness for C6 (amended) on a one-row store filtered by its case type. -/
theorem get_case_reports_filters_match_witness :
    exReport1.caseType = some "Dengue" :=
  ((get_case_reports_filters_match [exReport1] (some "Dengue") none none 1 10 [exReport1]
      rfl) exReport1 (List.mem_singleton.mpr rfl)).1 "Dengue" rfl (by decide)

/-- C9: when the store's ids are pairwise distinct (the primary-key invariant),
the get-by-id operation returns exactly the record carrying the requested id
when one exists, and fails with the 404 NotFound error when none does. -/
theorem get_case_report_by_id (db : List CaseReport) (report_id : Int)
    (huniq : db.Pairwise (fun r1 r2 => r1.id ≠ r2.id)) :
    (∀ r ∈ db, r.id = report_id → get_case_report report_id db = Except.ok r)
    ∧ ((∀ r ∈ db, r.id ≠ report_id) →
        get_case_report report_id db =
          Except.error { status_code := 404, detail := "Case report not found" }) := by
  constructor
  · intro r hr hrid
    rcases hfind : db.find? (fun x => x.id == report_id) with _ | x
    · exfalso
      have hnone := List.find?_eq_none.mp hfind r hr
      apply hnone
      simp [hrid]
    · have hxp := List.find?_some hfind
      have hxm := List.mem_of_find?_eq_some hfind
      have hx : x.id = report_id := by simpa using hxp
      have hrx : r = x :=
        pairwise_ne_key_inj CaseReport.id db huniq r hr x hxm (by rw [hrid, hx])
      unfold get_case_report
      rw [hfind, hrx]
  · intro hall
    have hfind : db.find? (fun x => x.id == report_id) = none :=
      List.find?_eq_none.mpr (fun x hx => by simpa using hall x hx)
    unfold get_case_report
    rw [hfind]

/-- Witness for C9 on the three-row store: id 1 is found, id 99 is not. -/
theorem get_case_report_by_id_witness :
    get_case_report 1 exDb = Except.ok exReport1
      ∧ get_case_report 99 exDb =
          Except.error { status_code := 404, detail := "Case report not found" } :=
  ⟨(get_case_report_by_id exDb 1 (by decide)).1 exReport1
      (List.mem_cons_self _ _) rfl,
   (get_case_report_by_id exDb 99 (by decide)).2 (by decide)⟩
